import Mathlib

/-!
Verification of the external-workload provisioning pipeline declared in this
repository (a Pulumi program: src/vm.ts, src/index.ts, src/function.ts).

The program declares a resource graph; the orchestration runtime materializes
resources in any order consistent with the declared dependency edges (explicit
dependsOn options plus implicit edges arising from one resource's outputs being
used among another's inputs), and a resource whose upstream dependency failed
is never materialized.  We embed the declared graph of the VmService component
(src/vm.ts) as a finite resource type with a dependency function read off the
source, and model an execution as a sequence of (resource, succeeded) events
that is valid when every event's dependencies already succeeded earlier and no
resource occurs twice.  Temporal claims about the pipeline become statements
over all valid executions; refuted ordering claims get a concrete valid
execution as counterexample.
-/

namespace VmDemo

/-- The resources declared inside the VmService component (src/vm.ts):
service account `sa` (line 49), the WorkloadGroup descriptor (line 53), the
local bundle-generation command `workDir` (line 67), the generated key pair
`sshKey` (line 95), the compute instance `vm` (line 98), the debug-snapshot
command `keyOnDisk` (line 130), the five remote bundle-file copies
`copyFile i` (line 152), the runtime-install command `dockerSetup` (line 159),
the workload-launch command `dockerRun` (line 183), and the mesh sidecar
configuration command `configure` (line 189). -/
inductive Res where
  | sa
  | workloadGroup
  | workDir
  | sshKey
  | vm
  | keyOnDisk
  | copyFile : Fin 5 → Res
  | dockerSetup
  | dockerRun
  | configure
  deriving DecidableEq, Repr, Fintype

/-- Explicit dependsOn edges, exactly as written in src/vm.ts:
workDir has dependsOn sa (line 93); each copyFile has dependsOn [vm, workDir]
(line 156); dockerRun has dependsOn dockerSetup (line 187); configure has
dependsOn [...remoteFiles, dockerRun] (line 212).  No other resource has a
dependsOn option. -/
def explicitDeps : Res → List Res
  | .sa => []
  | .workloadGroup => []
  | .workDir => [.sa]
  | .sshKey => []
  | .vm => []
  | .keyOnDisk => []
  | .copyFile _ => [.vm, .workDir]
  | .dockerSetup => []
  | .dockerRun => [.dockerSetup]
  | .configure =>
      [.copyFile 0, .copyFile 1, .copyFile 2, .copyFile 3, .copyFile 4, .dockerRun]

/-- Implicit edges: a resource whose inputs mention another resource's output
depends on it.  In src/vm.ts: vm's metadata interpolates
sshKey.publicKeyOpenssh (line 123); keyOnDisk's environment uses
sshKey.privateKeyOpenssh and this.hostname, the latter derived from
vm.networkInterfaces (lines 130-134, 127); every remote resource (the copies,
dockerSetup, dockerRun, configure) uses the connection object (line 143),
whose host is this.hostname (from vm) and whose privateKey is
sshKey.privateKeyOpenssh.  All other inputs reference only component
arguments or constants. -/
def implicitDeps : Res → List Res
  | .sa => []
  | .workloadGroup => []
  | .workDir => []
  | .sshKey => []
  | .vm => [.sshKey]
  | .keyOnDisk => [.sshKey, .vm]
  | .copyFile _ => [.vm, .sshKey]
  | .dockerSetup => [.vm, .sshKey]
  | .dockerRun => [.vm, .sshKey]
  | .configure => [.vm, .sshKey]

/-- All dependency edges of a resource: explicit dependsOn plus implicit
input-output references. -/
def deps (r : Res) : List Res := explicitDeps r ++ implicitDeps r

/-- An execution event: a resource was materialized, with the Bool recording
whether the attempt succeeded. -/
abbrev Event := Res × Bool

/-- Validity of an execution, processed front to back.  `seen` holds the
resources already attempted and `done` those that succeeded.  An event is
admissible when its resource was not attempted before and every dependency
already succeeded; a failed event enters `seen` but not `done`, so its
dependents can never run later. -/
def validAux : List Res → List Res → List Event → Bool
  | _, _, [] => true
  | seen, done, (r, b) :: rest =>
      decide (r ∉ seen) && (deps r).all (fun d => decide (d ∈ done)) &&
        validAux (r :: seen) (if b then r :: done else done) rest

/-- A valid execution of the declared graph: starts with nothing attempted. -/
abbrev Valid (run : List Event) : Prop := validAux [] [] run = true

/-- The deleteBeforeReplace resource option, exactly as set in src/vm.ts:
true on sa (line 51), workDir (line 93), keyOnDisk (line 141), every copyFile
(line 156) and dockerRun (line 187); absent (hence false) on the
WorkloadGroup, sshKey (line 95, no options at all), vm (line 125, options
carry only dependsOn and provider data), dockerSetup (line 180, no options)
and configure (line 212, only dependsOn). -/
def deleteBeforeReplace : Res → Bool
  | .sa => true
  | .workloadGroup => false
  | .workDir => true
  | .sshKey => false
  | .vm => false
  | .keyOnDisk => true
  | .copyFile _ => true
  | .dockerSetup => false
  | .dockerRun => true
  | .configure => false

/-- A valid execution in which the compute instance creation was attempted and
failed; used to witness the failure-isolation theorem. -/
def vmFailRun : List Event :=
  [(.sa, true), (.workloadGroup, true), (.sshKey, true), (.workDir, true),
   (.vm, false)]

/-- A complete successful execution of the component. -/
def fullOkRun : List Event :=
  [(.sa, true), (.workloadGroup, true), (.sshKey, true), (.workDir, true),
   (.vm, true), (.keyOnDisk, true),
   (.copyFile 0, true), (.copyFile 1, true), (.copyFile 2, true),
   (.copyFile 3, true), (.copyFile 4, true),
   (.dockerSetup, true), (.dockerRun, true), (.configure, true)]

/-- A complete valid execution in which the compute instance is created
before the bundle-generation command has even started: the initial segment
`vmBeforeBundleStart` already contains vm but no workDir event. -/
def vmBeforeBundleRun : List Event :=
  [(.sshKey, true), (.vm, true), (.sa, true), (.workloadGroup, true),
   (.workDir, true), (.keyOnDisk, true),
   (.copyFile 0, true), (.copyFile 1, true), (.copyFile 2, true),
   (.copyFile 3, true), (.copyFile 4, true),
   (.dockerSetup, true), (.dockerRun, true), (.configure, true)]

/-- The initial segment of `vmBeforeBundleRun` up to and including the vm. -/
def vmBeforeBundleStart : List Event := [(.sshKey, true), (.vm, true)]

/-- The rest of `vmBeforeBundleRun`. -/
def vmBeforeBundleRest : List Event :=
  [(.sa, true), (.workloadGroup, true),
   (.workDir, true), (.keyOnDisk, true),
   (.copyFile 0, true), (.copyFile 1, true), (.copyFile 2, true),
   (.copyFile 3, true), (.copyFile 4, true),
   (.dockerSetup, true), (.dockerRun, true), (.configure, true)]

/-- A complete valid execution in which the bundle-generation command runs
before the WorkloadGroup descriptor is declared: the initial segment
`bundleBeforeWgStart` contains workDir but no WorkloadGroup event. -/
def bundleBeforeWgRun : List Event :=
  [(.sa, true), (.workDir, true), (.sshKey, true), (.vm, true),
   (.workloadGroup, true), (.keyOnDisk, true),
   (.copyFile 0, true), (.copyFile 1, true), (.copyFile 2, true),
   (.copyFile 3, true), (.copyFile 4, true),
   (.dockerSetup, true), (.dockerRun, true), (.configure, true)]

/-- The initial segment of `bundleBeforeWgRun` up to and including workDir. -/
def bundleBeforeWgStart : List Event := [(.sa, true), (.workDir, true)]

/-- The rest of `bundleBeforeWgRun`. -/
def bundleBeforeWgRest : List Event :=
  [(.sshKey, true), (.vm, true),
   (.workloadGroup, true), (.keyOnDisk, true),
   (.copyFile 0, true), (.copyFile 1, true), (.copyFile 2, true),
   (.copyFile 3, true), (.copyFile 4, true),
   (.dockerSetup, true), (.dockerRun, true), (.configure, true)]

/-- A complete valid execution in which the debug snapshot fails while every
other resource, in particular all of steps 6-9, succeeds. -/
def snapshotFailRun : List Event :=
  [(.sa, true), (.workloadGroup, true), (.sshKey, true), (.workDir, true),
   (.vm, true), (.keyOnDisk, false),
   (.copyFile 0, true), (.copyFile 1, true), (.copyFile 2, true),
   (.copyFile 3, true), (.copyFile 4, true),
   (.dockerSetup, true), (.dockerRun, true), (.configure, true)]

/-- The five bundle files, exactly the list at src/vm.ts line 151. -/
def files : List String :=
  ["cluster.env", "istio-token", "mesh.yaml", "root-cert.pem", "hosts"]

/-- Modelled from the spec: the external bundle-expansion tool invoked by the
workDir create script (istioctl x workload entry configure, src/vm.ts line
90, a binary not part of this repository) expands the workload-group
descriptor into the five bundle files cluster.env, istio-token, mesh.yaml,
root-cert.pem and hosts inside WORK_DIR. -/
def bundleExpansionWrites : List String :=
  ["cluster.env", "istio-token", "mesh.yaml", "root-cert.pem", "hosts"]

/-- Files written into the working directory by the workDir create script
(src/vm.ts lines 70-91): the heredoc writes workloadgroup.yaml, then the
bundle-expansion tool writes its output there. -/
def workDirCreateWrites : List String := "workloadgroup.yaml" :: bundleExpansionWrites

/-- Files written by the keyOnDisk create script (src/vm.ts lines 135-139):
key and hostname. -/
def keyOnDiskCreateWrites : List String := ["key", "hostname"]

/-- Contents of the per-workload working directory after a successful apply:
everything the two local commands wrote. -/
def afterApplyFiles : List String := workDirCreateWrites ++ keyOnDiskCreateWrites

/-- Mode set on the key file by the keyOnDisk create script: chmod 0600
(src/vm.ts line 137). -/
def keyFileMode : Nat := 0o600

/-- The working directory for a workload, relative to the program directory:
workloads/<name> (src/vm.ts line 35). -/
def workloadsDir (name : String) : String := "workloads/" ++ name

/-- The operations the CLI performs against the deployment stack
(src/index.ts). -/
inductive CliOp where
  | createOrSelect
  | cancel
  | refresh
  | up
  | destroy
  | printSummary
  deriving DecidableEq, Repr

/-- Outcomes of the individual stack operations, as seen by the CLI action;
ok values of up and destroy carry the change summary that gets printed. -/
structure StackOutcomes where
  createOrSelect : Except String Unit
  cancel : Except String Unit
  refresh : Except String Unit
  up : Except String String
  destroy : Except String String

/-- The CLI action of src/index.ts lines 9-53, as a function from the
destroy flag and the operation outcomes to the trace of operations performed
and the final result.  Control flow mirrors the source: createOrSelectStack,
then stack.cancel, then either stack.destroy followed by printing the
summary (the catch block rethrows, so a destroy error propagates unchanged)
or stack.refresh, stack.up and printing the summary; any rejection aborts
the remaining steps and surfaces the underlying error, making the process
exit non-zero. -/
def cliAction (destroyFlag : Bool) (s : StackOutcomes) :
    List CliOp × Except String Unit :=
  match s.createOrSelect with
  | .error e => ([.createOrSelect], .error e)
  | .ok _ =>
    match s.cancel with
    | .error e => ([.createOrSelect, .cancel], .error e)
    | .ok _ =>
      if destroyFlag then
        match s.destroy with
        | .error e => ([.createOrSelect, .cancel, .destroy], .error e)
        | .ok _ =>
            ([.createOrSelect, .cancel, .destroy, .printSummary], .ok ())
      else
        match s.refresh with
        | .error e => ([.createOrSelect, .cancel, .refresh], .error e)
        | .ok _ =>
          match s.up with
          | .error e => ([.createOrSelect, .cancel, .refresh, .up], .error e)
          | .ok _ =>
              ([.createOrSelect, .cancel, .refresh, .up, .printSummary], .ok ())

/-- The flags the CLI accepts: exactly the one --destroy option
(src/index.ts line 8). -/
def cliFlags : List String := ["--destroy"]

/-- The fixed stack identifier used for select-or-create
(src/index.ts line 12). -/
def stackName : String := "demo"

/-- Outcomes in which every stack operation succeeds. -/
def allOkOutcomes : StackOutcomes :=
  { createOrSelect := .ok (), cancel := .ok (), refresh := .ok (),
    up := .ok "summary", destroy := .ok "summary" }

/-- An access config of a network interface, as in the compute provider's
output type; natIp is its NAT address. -/
structure AccessConfig where
  natIp : String
  deriving DecidableEq, Repr

/-- A network interface output: the accessConfigs field is optional
(undefined in the source language when absent). -/
structure NetworkInterface where
  accessConfigs : Option (List AccessConfig)
  deriving DecidableEq, Repr

/-- The hostname output computed at src/vm.ts line 127:
netint.accessConfigs ? netint.accessConfigs[0].natIp : ''.
An absent (undefined) accessConfigs field is falsy, yielding ''; a present
field, even an empty array, is truthy, so the code reads element 0, which
for an empty array is undefined and makes the natIp access throw a
TypeError; otherwise the first element's natIp is returned. -/
def hostnameOutput (netint : NetworkInterface) : Except String String :=
  match netint.accessConfigs with
  | none => .ok ""
  | some cfgs =>
    match cfgs with
    | [] => .error "TypeError: Cannot read properties of undefined"
    | c :: _ => .ok c.natIp

/-- Inputs of the kubeconfig-writing local command declared at
src/function.ts lines 100-108. -/
structure KcCommandInputs where
  trigger : Nat
  deleteBeforeReplace : Bool
  deriving DecidableEq, Repr

/-- The kubeconfig-writing local command as a function of the wall clock at
program evaluation: its triggers list is
[ always: new Date().getMilliseconds() ] (src/function.ts line 103), the
millisecond component of the current time, and its options set
deleteBeforeReplace (line 107).  The millisecond component is in [0, 1000).
All other inputs are fixed by the program. -/
def localKcInputs (msAtEval : Nat) : KcCommandInputs :=
  { trigger := msAtEval, deleteBeforeReplace := true }

theorem validAux_cons {seen done : List Res} {r : Res} {b : Bool}
    {rest : List Event} (h : validAux seen done ((r, b) :: rest) = true) :
    r ∉ seen ∧ (∀ d ∈ deps r, d ∈ done) ∧
      validAux (r :: seen) (if b then r :: done else done) rest = true := by
  simp only [validAux, Bool.and_eq_true, List.all_eq_true, decide_eq_true_eq] at h
  exact ⟨h.1.1, h.1.2, h.2⟩

/-- A valid execution stays valid when truncated: validity of an appended run
gives validity of its first part under the same accumulators. -/
theorem validAux_append_left (p q : List Event) :
    ∀ seen done, validAux seen done (p ++ q) = true →
      validAux seen done p = true := by
  induction p with
  | nil => intro seen done _; rfl
  | cons hd tl ih =>
      intro seen done h
      obtain ⟨r, b⟩ := hd
      rw [List.cons_append] at h
      obtain ⟨h1, h2, h3⟩ := validAux_cons h
      simp only [validAux, Bool.and_eq_true, List.all_eq_true, decide_eq_true_eq]
      exact ⟨⟨h1, h2⟩, ih _ _ h3⟩

/-- No resource of a valid tail was already attempted. -/
theorem validAux_not_seen (run : List Event) :
    ∀ seen done, validAux seen done run = true →
      ∀ r b, (r, b) ∈ run → r ∉ seen := by
  induction run with
  | nil => intro seen done _ r b hmem; cases hmem
  | cons hd tl ih =>
      intro seen done h r b hmem
      obtain ⟨r0, b0⟩ := hd
      obtain ⟨h1, _, h3⟩ := validAux_cons h
      rcases List.mem_cons.mp hmem with heq | htl
      · rw [Prod.mk.injEq] at heq
        exact heq.1 ▸ h1
      · have := ih _ _ h3 r b htl
        exact fun hc => this (List.mem_cons_of_mem _ hc)

/-- Each resource is attempted at most once in a valid execution, so its
outcome is unique. -/
theorem valid_unique_outcome (run : List Event) :
    ∀ seen done, validAux seen done run = true →
      ∀ r b1 b2, (r, b1) ∈ run → (r, b2) ∈ run → b1 = b2 := by
  induction run with
  | nil => intro seen done _ r b1 b2 hm; cases hm
  | cons hd tl ih =>
      intro seen done h r b1 b2 hm1 hm2
      obtain ⟨r0, b0⟩ := hd
      obtain ⟨_, _, h3⟩ := validAux_cons h
      rcases List.mem_cons.mp hm1 with he1 | ht1
      · rw [Prod.mk.injEq] at he1
        rcases List.mem_cons.mp hm2 with he2 | ht2
        · rw [Prod.mk.injEq] at he2
          exact he1.2.trans he2.2.symm
        · exact absurd (he1.1 ▸ ht2)
            (fun hc => validAux_not_seen tl _ _ h3 r0 b2 hc (List.mem_cons_self _ _))
      · rcases List.mem_cons.mp hm2 with he2 | ht2
        · rw [Prod.mk.injEq] at he2
          exact absurd (he2.1 ▸ ht1)
            (fun hc => validAux_not_seen tl _ _ h3 r0 b1 hc (List.mem_cons_self _ _))
        · exact ih _ _ h3 r b1 b2 ht1 ht2

/-- In a valid execution, every dependency of an executed resource either was
already successful in the accumulator or succeeds within the run. -/
theorem validAux_dep_done (run : List Event) :
    ∀ seen done, validAux seen done run = true →
      ∀ r b, (r, b) ∈ run → ∀ d ∈ deps r, d ∈ done ∨ (d, true) ∈ run := by
  induction run with
  | nil => intro seen done _ r b hm; cases hm
  | cons head tl ih =>
      intro seen done h r b hm d hdep
      obtain ⟨r0, b0⟩ := head
      obtain ⟨_, hall, h3⟩ := validAux_cons h
      rcases List.mem_cons.mp hm with heq | htl
      · rw [Prod.mk.injEq] at heq
        exact Or.inl (hall d (heq.1 ▸ hdep))
      · rcases ih _ _ h3 r b htl d hdep with hdone | hrun
        · cases b0 with
          | true =>
              rcases List.mem_cons.mp (by simpa using hdone) with h1 | h2
              · exact Or.inr (List.mem_cons.mpr (Or.inl (by rw [h1])))
              · exact Or.inl h2
          | false => exact Or.inl (by simpa using hdone)
        · exact Or.inr (List.mem_cons_of_mem _ hrun)

/-- Dependencies of anything executed in a fully valid run succeed within the
run. -/
theorem valid_dep_done {run : List Event} (h : Valid run) {r : Res} {b : Bool}
    (hm : (r, b) ∈ run) {d : Res} (hdep : d ∈ deps r) : (d, true) ∈ run := by
  rcases validAux_dep_done run [] [] h r b hm d hdep with hdone | hrun
  · cases hdone
  · exact hrun

/-- Dependencies of anything executed within an initial segment of a valid
run succeed within that same initial segment, i.e. before the dependent
resource starts. -/
theorem valid_dep_done_in_segment {run p q : List Event} (h : Valid run)
    (hsplit : run = p ++ q) {r : Res} {b : Bool} (hm : (r, b) ∈ p) {d : Res}
    (hdep : d ∈ deps r) : (d, true) ∈ p := by
  have hp : validAux [] [] p = true := validAux_append_left p q [] [] (hsplit ▸ h)
  rcases validAux_dep_done p [] [] hp r b hm d hdep with hdone | hrun
  · cases hdone
  · exact hrun

/-- Claim C1: in every valid execution in which the compute instance creation
fails, none of the five bundle-file copies, the runtime installation, the
workload process launch, or the mesh sidecar configuration ever executes, so
no partial remote state is created for the workload. -/
theorem compute_failure_blocks_remote_steps (run : List Event) (h : Valid run)
    (hfail : (Res.vm, false) ∈ run) :
    (∀ i : Fin 5, ∀ b, (Res.copyFile i, b) ∉ run) ∧
      (∀ b, (Res.dockerSetup, b) ∉ run) ∧ (∀ b, (Res.dockerRun, b) ∉ run) ∧
      (∀ b, (Res.configure, b) ∉ run) := by
  have key : ∀ r : Res, Res.vm ∈ deps r → ∀ b, (r, b) ∉ run := by
    intro r hdep b hm
    have hvt : (Res.vm, true) ∈ run := valid_dep_done h hm hdep
    have := valid_unique_outcome run [] [] h Res.vm false true hfail hvt
    simp at this
  exact ⟨fun i b => key _ (by fin_cases i <;> decide) b,
    fun b => key _ (by decide) b, fun b => key _ (by decide) b,
    fun b => key _ (by decide) b⟩

/-- Witness for C1: a concrete valid execution where vm creation failed and
none of the remote steps appears. -/
theorem compute_failure_blocks_remote_steps_witness :
    Valid vmFailRun ∧ (Res.vm, false) ∈ vmFailRun ∧
      ((∀ i : Fin 5, ∀ b, (Res.copyFile i, b) ∉ vmFailRun) ∧
        (∀ b, (Res.dockerSetup, b) ∉ vmFailRun) ∧
        (∀ b, (Res.dockerRun, b) ∉ vmFailRun) ∧
        (∀ b, (Res.configure, b) ∉ vmFailRun)) :=
  ⟨by decide, by decide,
    compute_failure_blocks_remote_steps vmFailRun (by decide) (by decide)⟩

/-- Claim C2: in every valid execution, at any point where the mesh sidecar
configuration step has already started, all five bundle-file copies and the
workload process launch have already completed successfully; it never starts
before either is complete. -/
theorem configure_after_copies_and_launch (run p q : List Event)
    (h : Valid run) (hsplit : run = p ++ q) (b : Bool)
    (hc : (Res.configure, b) ∈ p) :
    (∀ i : Fin 5, (Res.copyFile i, true) ∈ p) ∧ (Res.dockerRun, true) ∈ p :=
  ⟨fun i => valid_dep_done_in_segment h hsplit hc (by fin_cases i <;> decide),
    valid_dep_done_in_segment h hsplit hc (by decide)⟩

/-- Witness for C2: applying the theorem to a concrete complete run. -/
theorem configure_after_copies_and_launch_witness :
    (∀ i : Fin 5, (Res.copyFile i, true) ∈ fullOkRun) ∧
      (Res.dockerRun, true) ∈ fullOkRun :=
  configure_after_copies_and_launch fullOkRun fullOkRun [] (by decide)
    (by simp) true (by decide)

/-- Counterexample to C3 as stated: a concrete valid execution of the whole
component in which the compute instance is created in an initial segment
that contains no Bundle Generation event at all, so it is not the case that
both branches complete before Compute Resource Creation starts in every
interleaving. -/
theorem bundle_not_before_vm_cex :
    Valid vmBeforeBundleRun ∧
      vmBeforeBundleRun = vmBeforeBundleStart ++ vmBeforeBundleRest ∧
      (Res.vm, true) ∈ vmBeforeBundleStart ∧
      (∀ b, (Res.workDir, b) ∉ vmBeforeBundleStart) := by decide

/-- Claim C3 amended: in every valid execution, Key Generation completes
before Compute Resource Creation starts, but Bundle Generation is only
guaranteed to complete before each Artifact Propagation copy starts, not
before the compute instance. -/
theorem key_before_vm_bundle_before_copies (run p q : List Event)
    (h : Valid run) (hsplit : run = p ++ q) :
    (∀ b, (Res.vm, b) ∈ p → (Res.sshKey, true) ∈ p) ∧
      (∀ i : Fin 5, ∀ b, (Res.copyFile i, b) ∈ p → (Res.workDir, true) ∈ p) :=
  ⟨fun _ hm => valid_dep_done_in_segment h hsplit hm (by decide),
    fun i _ hm =>
      valid_dep_done_in_segment h hsplit hm (by fin_cases i <;> decide)⟩

/-- Witness for the amended C3 on a concrete complete run. -/
theorem key_before_vm_bundle_before_copies_witness :
    (Res.sshKey, true) ∈ fullOkRun ∧ (Res.workDir, true) ∈ fullOkRun :=
  ⟨(key_before_vm_bundle_before_copies fullOkRun fullOkRun [] (by decide)
      (by simp)).1 true (by decide),
    (key_before_vm_bundle_before_copies fullOkRun fullOkRun [] (by decide)
      (by simp)).2 0 true (by decide)⟩

/-- Claim C4: no resource depends on the debug-snapshot command, so its
failure propagates to nothing; concretely, a valid execution exists in which
it fails while artifact propagation, runtime installation, workload launch
and mesh sidecar configuration all complete. -/
theorem debug_snapshot_nonblocking :
    (∀ r : Res, Res.keyOnDisk ∉ deps r) ∧
      Valid snapshotFailRun ∧ (Res.keyOnDisk, false) ∈ snapshotFailRun ∧
      (∀ i : Fin 5, (Res.copyFile i, true) ∈ snapshotFailRun) ∧
      (Res.dockerSetup, true) ∈ snapshotFailRun ∧
      (Res.dockerRun, true) ∈ snapshotFailRun ∧
      (Res.configure, true) ∈ snapshotFailRun := by decide

/-- Counterexample to C5 as stated: a concrete valid execution of the whole
component in which Bundle Generation runs in an initial segment containing
no WorkloadGroup event, so Bundle Generation does not wait for the
mesh-side workload-group descriptor. -/
theorem bundle_runs_without_workloadgroup_cex :
    Valid bundleBeforeWgRun ∧
      bundleBeforeWgRun = bundleBeforeWgStart ++ bundleBeforeWgRest ∧
      (Res.workDir, true) ∈ bundleBeforeWgStart ∧
      (∀ b, (Res.workloadGroup, b) ∉ bundleBeforeWgStart) := by decide

/-- Claim C5 amended: in every valid execution, Bundle Generation starts
only after the service account has completed; it is not ordered after the
workload-group descriptor. -/
theorem bundle_after_service_account (run p q : List Event)
    (h : Valid run) (hsplit : run = p ++ q) (b : Bool)
    (hm : (Res.workDir, b) ∈ p) : (Res.sa, true) ∈ p :=
  valid_dep_done_in_segment h hsplit hm (by decide)

/-- Witness for the amended C5 on a concrete complete run. -/
theorem bundle_after_service_account_witness : (Res.sa, true) ∈ fullOkRun :=
  bundle_after_service_account fullOkRun fullOkRun [] (by decide) (by simp)
    true (by decide)

/-- Counterexample to C6 as stated: after a successful apply the working
directory also contains workloadgroup.yaml, written by the heredoc of the
workDir create script, which is not among the five bundle files plus key and
hostname the claim enumerates. -/
theorem workdir_contents_cex :
    "workloadgroup.yaml" ∈ afterApplyFiles ∧
      "workloadgroup.yaml" ∉ files ++ ["key", "hostname"] := by decide

/-- Claim C6 amended: after a successful apply with workload name test the
working directory workloads/test contains exactly workloadgroup.yaml, the
five bundle files, and the debug files key (mode 0600) and hostname. -/
theorem workdir_contents_amended :
    afterApplyFiles =
        "workloadgroup.yaml" :: files ++ ["key", "hostname"] ∧
      keyFileMode = 0o600 ∧ workloadsDir "test" = "workloads/test" := by decide

/-- Counterexample to C7 as stated: neither the generated key pair nor the
compute instance carries the replace-before-delete policy flag; both are
declared with no such option. -/
theorem replace_policy_cex :
    deleteBeforeReplace Res.sshKey = false ∧
      deleteBeforeReplace Res.vm = false := by decide

/-- Claim C7 amended: the deleteBeforeReplace policy flag is carried by the
service account, the bundle-generation command, the debug-snapshot command,
each of the five bundle-file copies, the workload-launch command, and the
kubeconfig-writing command; the generated key pair, the compute instance,
the workload-group descriptor, the runtime-install command and the sidecar
configuration command carry no such flag. -/
theorem replace_policy_flags :
    deleteBeforeReplace Res.sa = true ∧ deleteBeforeReplace Res.workDir = true ∧
      deleteBeforeReplace Res.keyOnDisk = true ∧
      (∀ i : Fin 5, deleteBeforeReplace (Res.copyFile i) = true) ∧
      deleteBeforeReplace Res.dockerRun = true ∧
      (localKcInputs 0).deleteBeforeReplace = true ∧
      deleteBeforeReplace Res.sshKey = false ∧
      deleteBeforeReplace Res.vm = false ∧
      deleteBeforeReplace Res.workloadGroup = false ∧
      deleteBeforeReplace Res.dockerSetup = false ∧
      deleteBeforeReplace Res.configure = false := by decide

/-- Claim C8: the CLI exposes a single command with exactly the one boolean
--destroy flag and a fixed stack identifier; without --destroy it performs
select-or-create, cancel, refresh, reconcile and prints the summary; with
--destroy it performs select-or-create, cancel, teardown and prints the
summary; and any error result of the action is exactly the error of one of
the underlying stack operations, surfaced unchanged (making the process exit
non-zero). -/
theorem cli_behavior :
    cliFlags = ["--destroy"] ∧ stackName = "demo" ∧
      (∀ s : StackOutcomes, ∀ u : String,
        s.createOrSelect = .ok () → s.cancel = .ok () → s.refresh = .ok () →
        s.up = .ok u →
        cliAction false s =
          ([.createOrSelect, .cancel, .refresh, .up, .printSummary], .ok ())) ∧
      (∀ s : StackOutcomes, ∀ d : String,
        s.createOrSelect = .ok () → s.cancel = .ok () → s.destroy = .ok d →
        cliAction true s =
          ([.createOrSelect, .cancel, .destroy, .printSummary], .ok ())) ∧
      (∀ s : StackOutcomes, ∀ flag : Bool, ∀ e : String,
        (cliAction flag s).2 = .error e →
        s.createOrSelect = .error e ∨ s.cancel = .error e ∨
          s.refresh = .error e ∨ s.up = .error e ∨ s.destroy = .error e) := by
  refine ⟨rfl, rfl, ?_, ?_, ?_⟩
  · intro s u h1 h2 h3 h4
    simp [cliAction, h1, h2, h3, h4]
  · intro s d h1 h2 h3
    simp [cliAction, h1, h2, h3]
  · intro s flag e h
    obtain ⟨cs, cl, rf, upr, ds⟩ := s
    rcases cs with ec | uc <;> rcases cl with el | ul <;>
      rcases rf with er | ur <;> rcases upr with eu | uu <;>
      rcases ds with ed | ud <;> cases flag <;>
      simp_all [cliAction]

/-- Witness for C8: the traces on all-successful outcomes. -/
theorem cli_behavior_witness :
    cliAction false allOkOutcomes =
        ([.createOrSelect, .cancel, .refresh, .up, .printSummary], .ok ()) ∧
      cliAction true allOkOutcomes =
        ([.createOrSelect, .cancel, .destroy, .printSummary], .ok ()) :=
  ⟨cli_behavior.2.2.1 allOkOutcomes "summary" rfl rfl rfl rfl,
    cli_behavior.2.2.2.1 allOkOutcomes "summary" rfl rfl rfl⟩

/-- Counterexample to C9 as stated: an interface whose accessConfigs field is
present but holds no access configs makes the hostname computation throw
(reading natIp of an undefined element), instead of yielding the empty
string. -/
theorem hostname_empty_list_cex :
    hostnameOutput { accessConfigs := some [] } =
        .error "TypeError: Cannot read properties of undefined" ∧
      hostnameOutput { accessConfigs := some [] } ≠ .ok "" :=
  ⟨rfl, fun h => Except.noConfusion h⟩

/-- Claim C9 amended: the hostname output is the natIp of the first access
config of the first network interface when one exists; when the
accessConfigs field is absent (undefined) the output is the empty string, so
the remote session host can silently be ''; but when the field is present
and empty the computation fails with a TypeError instead of producing ''. -/
theorem hostname_output_amended (netint : NetworkInterface) :
    (netint.accessConfigs = none → hostnameOutput netint = .ok "") ∧
      (∀ c rest, netint.accessConfigs = some (c :: rest) →
        hostnameOutput netint = .ok c.natIp) ∧
      (netint.accessConfigs = some [] →
        hostnameOutput netint =
          .error "TypeError: Cannot read properties of undefined") := by
  refine ⟨fun h => ?_, fun c rest h => ?_, fun h => ?_⟩ <;>
    simp [hostnameOutput, h]

/-- Witness for the amended C9 at three concrete interfaces. -/
theorem hostname_output_amended_witness :
    hostnameOutput { accessConfigs := none } = .ok "" ∧
      hostnameOutput { accessConfigs := some [{ natIp := "34.0.0.1" }] } =
        .ok "34.0.0.1" ∧
      hostnameOutput { accessConfigs := some [] } =
        .error "TypeError: Cannot read properties of undefined" :=
  ⟨(hostname_output_amended _).1 rfl,
    (hostname_output_amended _).2.1 { natIp := "34.0.0.1" } [] rfl,
    (hostname_output_amended _).2.2 rfl⟩

/-- Claim C10: the kubeconfig-writing command's declared inputs include a
trigger equal to the millisecond component of the wall clock at program
evaluation, so two evaluations of the program at clock readings that differ
produce different resource inputs even with identical external inputs:
evaluation is not deterministic across runs, and distinct readings below
1000 exist. -/
theorem kc_trigger_nondeterminism :
    (∀ ms1 ms2 : Nat, ms1 < 1000 → ms2 < 1000 → ms1 ≠ ms2 →
        localKcInputs ms1 ≠ localKcInputs ms2) ∧
      (∃ a b : Nat, a < 1000 ∧ b < 1000 ∧ a ≠ b) := by
  constructor
  · intro ms1 ms2 _ _ hne heq
    exact hne (congrArg KcCommandInputs.trigger heq)
  · exact ⟨0, 1, by decide, by decide, by decide⟩

/-- Witness for C10 at the concrete clock readings 0 and 1. -/
theorem kc_trigger_nondeterminism_witness :
    localKcInputs 0 ≠ localKcInputs 1 :=
  kc_trigger_nondeterminism.1 0 1 (by decide) (by decide) (by decide)

end VmDemo
